import Mathlib

/-!
Verification of the content-generation core of `src/streamlit_app.py`
(Typeless Writer): the prompt builder `build_user_message`, the two
provider adapters `generate_with_gemini` / `generate_with_openai`, and
the generation flow of `main` (fragment guard, provider dispatch and the
try/except error surface).

Modelling conventions:
* Python strings are Lean `String`s; Python string truthiness (`""` is
  falsy) is made explicit.
* The promotion dict `{"product_name": ..., "link": ...}` is a structure
  with `Option String` fields; `none` models an absent key, so
  `promotion.get(k)` is a total field access and its Python truthiness is
  `pyTruthy`.
* The external SDK calls and `json.loads` (Python stdlib, outside this
  repository) are the environment: an adapter receives an oracle mapping
  the request it issues to a `BackendOutcome`, which is either a raised
  transport/auth exception or a response text represented by its
  `json.loads` image (`Except.error` = `json.JSONDecodeError` message,
  `Except.ok` = the parsed JSON value).
-/

/-- A fragment, as stored in `data["projects"][p]["fragments"]`:
a dict with keys `content` and `created_at`. -/
structure Fragment where
  content : String
  created_at : String
deriving DecidableEq, Repr

/-- The promotion dict passed to the adapters: keys `product_name` and
`link`, either of which may be absent (`none`). -/
structure Promotion where
  product_name : Option String
  link : Option String
deriving DecidableEq, Repr

/-- Python truthiness of `promotion.get(key)`: `None` (absent key) and the
empty string are falsy, every other string is truthy. -/
def pyTruthy : Option String → Bool
  | none => false
  | some s => !(s == "")

/-- The fixed lead-in sentence of `build_user_message`
(src/streamlit_app.py line 119). -/
def leadIn : String := "以下是我的靈感碎片，請幫我整理成文章和社群貼文：\n\n"

/-- One numbered fragment block, `f"【碎片 {i}】\n{fragment['content']}\n\n"`
(src/streamlit_app.py line 122). -/
def fragmentBlock (i : Nat) (content : String) : String :=
  "【碎片 " ++ toString i ++ "】\n" ++ content ++ "\n\n"

/-- The `for i, fragment in enumerate(fragments, 1): message += ...` loop of
`build_user_message` (src/streamlit_app.py lines 121-122), as a left
accumulation starting from the message built so far. -/
def fragmentsFold (i : Nat) (message : String) : List Fragment → String
  | [] => message
  | f :: fs => fragmentsFold (i + 1) (message ++ fragmentBlock i f.content) fs

/-- The promotion lines appended by `build_user_message` when the promotion
is accepted (src/streamlit_app.py lines 125-128). -/
def promotionLines (pr : Promotion) : String :=
  "\n---\n導購資訊：\n" ++
    ("產品/服務名稱：" ++ pr.product_name.getD "" ++ "\n") ++
    ("推廣連結：" ++ pr.link.getD "" ++ "\n") ++
    "請在社群貼文中自然地融入這個推廣連結。\n"

/-- `build_user_message(fragments, promotion)` (src/streamlit_app.py lines
117-130): the lead-in sentence, the numbered fragment blocks accumulated in
order, then — when `promotion and promotion.get("link") and
promotion.get("product_name")` is truthy — the promotion lines. -/
def build_user_message (fragments : List Fragment) (promotion : Option Promotion) : String :=
  let message := fragmentsFold 1 leadIn fragments
  match promotion with
  | none => message
  | some pr =>
    if pyTruthy pr.link && pyTruthy pr.product_name then message ++ promotionLines pr
    else message

/-- Right-nested rendering of the numbered fragment blocks starting at
index `i`; related to the source's accumulating loop by
`fragmentsFold_eq`. -/
def fragmentsSection : Nat → List Fragment → String
  | _, [] => ""
  | i, f :: fs => fragmentBlock i f.content ++ fragmentsSection (i + 1) fs

/-- The promotion part of the message as a total function of the optional
promotion: empty unless both fields are truthy. -/
def promotionSection : Option Promotion → String
  | none => ""
  | some pr =>
    if pyTruthy pr.link && pyTruthy pr.product_name then promotionLines pr else ""

theorem fragmentsFold_eq (fs : List Fragment) :
    ∀ (i : Nat) (m : String), fragmentsFold i m fs = m ++ fragmentsSection i fs := by
  induction fs with
  | nil => intro i m; simp [fragmentsFold, fragmentsSection]
  | cons f fs ih =>
    intro i m
    simp [fragmentsFold, fragmentsSection, ih, String.append_assoc]

/-- Normal form of `build_user_message`: lead-in, fragment section,
promotion section. -/
theorem build_user_message_eq (fs : List Fragment) (pr : Option Promotion) :
    build_user_message fs pr = leadIn ++ fragmentsSection 1 fs ++ promotionSection pr := by
  cases pr with
  | none => simp [build_user_message, promotionSection, fragmentsFold_eq]
  | some p =>
    simp only [build_user_message, promotionSection, fragmentsFold_eq]
    cases h : pyTruthy p.link && pyTruthy p.product_name with
    | false => simp [String.append_assoc]
    | true => simp [String.append_assoc]

/-- The fixed system instruction `SYSTEM_PROMPT` (src/streamlit_app.py
lines 51-79). -/
def SYSTEM_PROMPT : String :=
"你是一位專業的內容編輯與 SEO 專家。你的任務是將使用者提供的「碎片化靈感」整理成結構完整的文章和社群貼文。

請嚴格遵守以下規則：
1. **語氣保留**：輸出的文章必須保留使用者原始輸入的「口語感」與「個人風格」，僅做錯別字修正與過場連接，不可過度修飾成機器人語氣。
2. **SEO 文章結構**：
   - 必須包含一個 H1 主標題
   - 必須包含 2-4 個 H2 副標題
   - 段落要通順有邏輯
   - 控制在 800-1500 字左右
3. **社群貼文**：
   - 生成 4-6 篇短貼文
   - 適合 Facebook、Threads、Instagram
   - 每篇 100-200 字
   - 分段清晰，適合手機閱讀
   - 可以使用 emoji 增加吸引力

請以 JSON 格式回傳結果，格式如下：
\x7b
  \"article\": \x7b
    \"title\": \"H1 主標題\",
    \"content\": \"完整的 Markdown 文章內容（包含 ## H2 標籤）\"
  \x7d,
  \"socialPosts\": [
    \x7b
      \"platform\": \"Facebook\",
      \"content\": \"貼文內容\"
    \x7d
  ]
\x7d"

/-- JSON values, the image of Python's `json.loads` on a response text. -/
inductive Json where
  | null
  | bool (b : Bool)
  | num (n : Int)
  | str (s : String)
  | arr (items : List Json)
  | obj (fields : List (String × Json))

/-- Python dict subscript / `dict.get` on a parsed JSON object: `none`
models a `KeyError` / absent key (also for non-object values). -/
def dictGet (j : Json) (key : String) : Option Json :=
  match j with
  | .obj fields => fields.lookup key
  | _ => none

/-- Outcome of the single external SDK call an adapter makes, as seen by
the Python code: either the call raises (network/auth/quota exception with
message `msg`), or it returns a response text, which we represent by its
`json.loads` image (`.error` = `json.JSONDecodeError` message, `.ok` = the
parsed value). -/
inductive BackendOutcome where
  | transportError (msg : String)
  | response (parsed : Except String Json)

/-- The request `generate_with_gemini` issues (src/streamlit_app.py lines
83-95): the api key handed to `genai.configure`, the model name, the single
concatenated prompt string, and the generation config
(`response_mime_type="application/json"`, `temperature=0.7`). -/
structure GeminiRequest where
  api_key : String
  model : String
  prompt : String
  response_mime_type : String
  temperature : ℚ

/-- One chat message of the OpenAI request. -/
structure Message where
  role : String
  content : String

/-- The request `generate_with_openai` issues (src/streamlit_app.py lines
101-113): api key, model name, system/user message pair, temperature and
`response_format={"type": "json_object"}`. -/
structure OpenAIRequest where
  api_key : String
  model : String
  messages : List Message
  temperature : ℚ
  response_format_type : String

/-- `generate_with_gemini(api_key, fragments, promotion)`
(src/streamlit_app.py lines 81-97). The external SDK is the oracle
`backend`; the function builds the request, issues it (first component of
the result — the function never returns without having issued it), and
returns `json.loads(response.text)`: a raised exception or a JSON decode
failure propagates as `.error`, a parsed value is returned as `.ok`
without any further validation. -/
def generate_with_gemini (api_key : String) (fragments : List Fragment)
    (promotion : Option Promotion) (backend : GeminiRequest → BackendOutcome) :
    GeminiRequest × Except String Json :=
  let user_message := build_user_message fragments promotion
  let req : GeminiRequest :=
    { api_key := api_key
      model := "gemini-2.0-flash"
      prompt := SYSTEM_PROMPT ++ "\n\n" ++ user_message
      response_mime_type := "application/json"
      temperature := 7 / 10 }
  (req,
    match backend req with
    | .transportError m => .error m
    | .response parsed => parsed)

/-- `generate_with_openai(api_key, fragments, promotion)`
(src/streamlit_app.py lines 99-115), modelled exactly like
`generate_with_gemini`. -/
def generate_with_openai (api_key : String) (fragments : List Fragment)
    (promotion : Option Promotion) (backend : OpenAIRequest → BackendOutcome) :
    OpenAIRequest × Except String Json :=
  let user_message := build_user_message fragments promotion
  let req : OpenAIRequest :=
    { api_key := api_key
      model := "gpt-4o-mini"
      messages := [⟨"system", SYSTEM_PROMPT⟩, ⟨"user", user_message⟩]
      temperature := 7 / 10
      response_format_type := "json_object" }
  (req,
    match backend req with
    | .transportError m => .error m
    | .response parsed => parsed)

/-- What the generation branch of `main` ends in (src/streamlit_app.py
lines 344-391). -/
inductive MainOutcome where
  | emptyWarning
  | missingKeyError
  | stored (result : Json)
  | errorShown (msg : String)

/-- The generation flow of `main` (src/streamlit_app.py lines 341-391):
the empty-fragments guard (lines 344-346), the API-key guard (lines
364-366), the all-or-nothing promotion construction (lines 369-371), the
provider dispatch on `data["settings"]["api_provider"]` and the
`try/except` that stores the result or shows
`f"❌ 生成失敗：{str(e)}"` (lines 373-391). -/
def mainGenerateFlow (api_provider api_key : String) (using_secrets : Bool)
    (fragments : List Fragment) (product_name promo_link : String)
    (gb : GeminiRequest → BackendOutcome) (ob : OpenAIRequest → BackendOutcome) :
    MainOutcome :=
  match fragments with
  | [] => .emptyWarning
  | _ =>
    if using_secrets = false ∧ api_key = "" then .missingKeyError
    else
      let promotion : Option Promotion :=
        if product_name ≠ "" ∧ promo_link ≠ "" then
          some { product_name := some product_name, link := some promo_link }
        else none
      let result :=
        if api_provider = "gemini" then
          (generate_with_gemini api_key fragments promotion gb).2
        else
          (generate_with_openai api_key fragments promotion ob).2
      match result with
      | .ok v => .stored v
      | .error e => .errorShown ("❌ 生成失敗：" ++ e)

/-- An article of the canonical result shape (spec §3 and the JSON format
demanded by `SYSTEM_PROMPT`). -/
structure Article where
  title : String
  content : String

/-- A social post of the canonical result shape. -/
structure SocialPost where
  platform : String
  content : String

/-- The canonical generation result: one article plus an ordered list of
social posts. -/
structure GenerationResult where
  article : Article
  socialPosts : List SocialPost

/-- Modelled from the spec: the exact JSON encoding of one social post,
`{"platform": ..., "content": ...}`, used to build a synthetic backend
response that matches the GenerationResult shape. -/
def encodePost (p : SocialPost) : Json :=
  .obj [("platform", .str p.platform), ("content", .str p.content)]

/-- Modelled from the spec: the exact JSON encoding of a GenerationResult,
`{"article": {"title": ..., "content": ...}, "socialPosts": [...]}`. -/
def encodeResult (r : GenerationResult) : Json :=
  .obj
    [("article", .obj [("title", .str r.article.title), ("content", .str r.article.content)]),
     ("socialPosts", .arr (r.socialPosts.map encodePost))]

/-- `result['article']['title']` as read by `main`
(src/streamlit_app.py line 402). -/
def articleTitle (result : Json) : Option Json :=
  (dictGet result "article").bind fun a => dictGet a "title"

/-- `result['article']['content']` as read by `main`
(src/streamlit_app.py line 402). -/
def articleContent (result : Json) : Option Json :=
  (dictGet result "article").bind fun a => dictGet a "content"

/-- `result.get("socialPosts", [])` as read by `main`
(src/streamlit_app.py line 413). -/
def socialPostsOf (result : Json) : Json :=
  (dictGet result "socialPosts").getD (.arr [])

/-- `post['platform']` and `post['content']` as read by `main`
(src/streamlit_app.py lines 416-418). -/
def postFields (post : Json) : Option Json × Option Json :=
  (dictGet post "platform", dictGet post "content")

theorem string_foldl_append (l : List String) :
    ∀ m : String, l.foldl (fun r s => r ++ s) m = m ++ l.foldl (fun r s => r ++ s) "" := by
  induction l with
  | nil => intro m; simp [List.foldl]
  | cons a l ih =>
    intro m
    simp only [List.foldl]
    rw [ih (m ++ a), ih ("" ++ a), String.empty_append, String.append_assoc]

theorem string_join_cons (a : String) (l : List String) :
    String.join (a :: l) = a ++ String.join l := by
  simp only [String.join, List.foldl]
  rw [string_foldl_append l ("" ++ a), String.empty_append]

theorem fragmentsSection_eq_join (fs : List Fragment) :
    ∀ i : Nat, fragmentsSection i fs =
      String.join ((fs.enumFrom i).map fun p => fragmentBlock p.1 p.2.content) := by
  induction fs with
  | nil => intro i; rfl
  | cons f fs ih =>
    intro i
    simp only [fragmentsSection, List.enumFrom_cons, List.map_cons, string_join_cons]
    rw [ih (i + 1)]

theorem fragmentsSection_append_single (fs : List Fragment) (f : Fragment) :
    ∀ i : Nat, fragmentsSection i (fs ++ [f]) =
      fragmentsSection i fs ++ fragmentBlock (i + fs.length) f.content := by
  induction fs with
  | nil => intro i; simp [fragmentsSection, String.append_empty]
  | cons g fs ih =>
    intro i
    have h1 : fragmentsSection i ((g :: fs) ++ [f]) =
        fragmentBlock i g.content ++ fragmentsSection (i + 1) (fs ++ [f]) := rfl
    have h2 : fragmentsSection i (g :: fs) =
        fragmentBlock i g.content ++ fragmentsSection (i + 1) fs := rfl
    rw [h1, h2, ih (i + 1), ← String.append_assoc]
    have harith : i + 1 + fs.length = i + (g :: fs).length := by
      simp only [List.length_cons]; omega
    rw [harith]

theorem fragmentBlock_ne_empty (i : Nat) (c : String) : fragmentBlock i c ≠ "" := by
  intro h
  have h2 := congrArg String.data h
  rw [fragmentBlock, String.append_assoc, String.data_append] at h2
  simp at h2

theorem promotionLines_ne_empty (pr : Promotion) : promotionLines pr ≠ "" := by
  intro h
  have h2 := congrArg String.data h
  rw [promotionLines, String.append_assoc, String.data_append] at h2
  simp at h2

/-- The promotion section is non-empty exactly when the promotion is
present with both fields non-empty. -/
theorem promotionSection_ne_empty_iff (pr : Option Promotion) :
    promotionSection pr ≠ "" ↔
      ∃ pn l : String, pr = some ⟨some pn, some l⟩ ∧ pn ≠ "" ∧ l ≠ "" := by
  cases pr with
  | none => simp [promotionSection]
  | some p =>
    obtain ⟨pno, lo⟩ := p
    cases pno with
    | none => simp [promotionSection, pyTruthy]
    | some pn =>
      cases lo with
      | none => simp [promotionSection, pyTruthy]
      | some l =>
        by_cases hpn : pn = "" <;> by_cases hl : l = "" <;>
          simp [promotionSection, pyTruthy, hpn, hl, promotionLines_ne_empty]
        exact ⟨pn, l, ⟨rfl, rfl⟩, hpn, hl⟩

example : build_user_message [⟨"today I tried a new recipe", "t"⟩] none =
    "以下是我的靈感碎片，請幫我整理成文章和社群貼文：\n\n【碎片 1】\ntoday I tried a new recipe\n\n" := by
  rfl

example : build_user_message [⟨"A", "t1"⟩, ⟨"B", "t2"⟩]
      (some ⟨some "Pro", some "https://x.io"⟩) =
    "以下是我的靈感碎片，請幫我整理成文章和社群貼文：\n\n【碎片 1】\nA\n\n【碎片 2】\nB\n\n" ++
      "\n---\n導購資訊：\n產品/服務名稱：Pro\n推廣連結：https://x.io\n請在社群貼文中自然地融入這個推廣連結。\n" := by
  rfl

/-- C1, counterexample: the claim says an adapter called with an empty
fragment list rejects the request before issuing any outbound request.
It is false: `generate_with_gemini` with zero fragments still consults the
backend — its outcome is exactly whatever the backend answers (here once a
successful parse, once a network failure), so the request was issued, not
rejected. -/
theorem gemini_empty_fragments_consults_backend :
    (generate_with_gemini "key" [] none fun _ => .response (.ok .null)).2 = .ok .null ∧
    (generate_with_gemini "key" [] none fun _ => .transportError "network down").2 =
      .error "network down" :=
  ⟨rfl, rfl⟩

/-- C1, amended: neither adapter checks for an empty fragment list; the
rejection lives in the caller. `main` returns with a warning
(src/streamlit_app.py lines 344-346) when the fragment list is empty,
before any adapter — and hence any outbound request — is invoked,
regardless of provider, key, secrets mode, promotion fields or what the
backends would answer. -/
theorem main_rejects_empty_fragments
    (api_provider api_key : String) (using_secrets : Bool)
    (product_name promo_link : String)
    (gb : GeminiRequest → BackendOutcome) (ob : OpenAIRequest → BackendOutcome) :
    mainGenerateFlow api_provider api_key using_secrets [] product_name promo_link gb ob =
      .emptyWarning :=
  rfl

/-- C2, counterexample: the claim says a response whose parsed form is
missing the `article` key or has an empty `socialPosts` list is surfaced
as a parse failure, never returned as a partial result. It is false: the
adapter returns `json.loads(response.text)` with no shape validation, so
the parsed object `{"socialPosts": []}` — missing `article` AND with 0
social posts — is returned as a successful result. -/
theorem gemini_missing_article_returned_as_result :
    (generate_with_gemini "key" [⟨"hi", "t"⟩] none
        fun _ => .response (.ok (.obj [("socialPosts", .arr [])]))).2 =
      .ok (.obj [("socialPosts", .arr [])]) :=
  rfl

/-- C2, amended: the adapters surface only JSON syntax failures (a
`json.loads` error) and transport failures as errors; any successfully
parsed JSON value is returned as-is, with no validation of the
GenerationResult shape — missing top-level keys or an empty `socialPosts`
list included. -/
theorem adapters_return_parsed_json_unvalidated
    (k : String) (fs : List Fragment) (pr : Option Promotion) (v : Json) (e : String) :
    (generate_with_gemini k fs pr fun _ => .response (.ok v)).2 = .ok v ∧
    (generate_with_openai k fs pr fun _ => .response (.ok v)).2 = .ok v ∧
    (generate_with_gemini k fs pr fun _ => .response (.error e)).2 = .error e ∧
    (generate_with_openai k fs pr fun _ => .response (.error e)).2 = .error e ∧
    (generate_with_gemini k fs pr fun _ => .transportError e).2 = .error e ∧
    (generate_with_openai k fs pr fun _ => .transportError e).2 = .error e :=
  ⟨rfl, rfl, rfl, rfl, rfl, rfl⟩

/-- C3: for every non-empty fragment list, `build_user_message` is the
fixed lead-in sentence followed by each fragment rendered exactly once, in
input order, as its numbered block with 1-based index (`【碎片 N】`,
the full untruncated content, a blank line) — and with an arbitrary
promotion input the same fragment rendering is followed only by the
promotion section. -/
theorem build_user_message_renders_fragments_in_order
    (fs : List Fragment) (pr : Option Promotion) (_hne : fs ≠ []) :
    build_user_message fs none =
      leadIn ++ String.join ((fs.enumFrom 1).map fun p => fragmentBlock p.1 p.2.content) ∧
    build_user_message fs pr =
      leadIn ++ String.join ((fs.enumFrom 1).map fun p => fragmentBlock p.1 p.2.content) ++
        promotionSection pr := by
  constructor
  · rw [build_user_message_eq, fragmentsSection_eq_join]
    show _ ++ "" = _
    rw [String.append_empty]
  · rw [build_user_message_eq, fragmentsSection_eq_join]

/-- Witness for C3 at the spec's scenario input. -/
theorem build_user_message_renders_fragments_in_order_witness :
    build_user_message [⟨"today I tried a new recipe", "t"⟩] none =
      leadIn ++
        String.join (([(⟨"today I tried a new recipe", "t"⟩ : Fragment)].enumFrom 1).map
          fun p => fragmentBlock p.1 p.2.content) :=
  (build_user_message_renders_fragments_in_order
    [⟨"today I tried a new recipe", "t"⟩] none (by simp)).1

/-- C4: the promotion block is included iff both `product_name` and `link`
are present and non-empty; whenever the condition fails the output is
byte-identical to the no-promotion prompt (partial promotion data is
silently dropped). -/
theorem build_user_message_promotion_all_or_nothing
    (fs : List Fragment) (pr : Option Promotion) :
    build_user_message fs pr = build_user_message fs none ++ promotionSection pr ∧
    (promotionSection pr ≠ "" ↔
      ∃ pn l : String, pr = some ⟨some pn, some l⟩ ∧ pn ≠ "" ∧ l ≠ "") ∧
    (promotionSection pr = "" → build_user_message fs pr = build_user_message fs none) := by
  have hbase : build_user_message fs pr = build_user_message fs none ++ promotionSection pr := by
    rw [build_user_message_eq, build_user_message_eq]
    show _ = leadIn ++ fragmentsSection 1 fs ++ "" ++ promotionSection pr
    rw [String.append_empty]
  refine ⟨hbase, promotionSection_ne_empty_iff pr, fun h => ?_⟩
  rw [hbase, h, String.append_empty]

/-- Witness for C4: a promotion with a missing link is dropped, giving the
no-promotion prompt byte for byte. -/
theorem build_user_message_promotion_all_or_nothing_witness :
    build_user_message [⟨"A", "t"⟩] (some ⟨some "Pro", none⟩) =
      build_user_message [⟨"A", "t"⟩] none :=
  (build_user_message_promotion_all_or_nothing [⟨"A", "t"⟩]
    (some ⟨some "Pro", none⟩)).2.2 rfl

/-- C5: `build_user_message` is deterministic — two calls on identical
fragment lists and identical promotion inputs return identical text. (Its
Lean embedding is a pure function of its two arguments, mirroring that the
Python function reads no state and performs no side effect beyond building
its local string.) -/
theorem build_user_message_deterministic
    (fs₁ fs₂ : List Fragment) (pr₁ pr₂ : Option Promotion)
    (hf : fs₁ = fs₂) (hp : pr₁ = pr₂) :
    build_user_message fs₁ pr₁ = build_user_message fs₂ pr₂ := by
  rw [hf, hp]

/-- Witness for C5 at a concrete repeated call. -/
theorem build_user_message_deterministic_witness :
    build_user_message [⟨"A", "t"⟩] (some ⟨some "Pro", some "https://x.io"⟩) =
      build_user_message [⟨"A", "t"⟩] (some ⟨some "Pro", some "https://x.io"⟩) :=
  build_user_message_deterministic _ _ _ _ rfl rfl

/-- C6: on every input the two adapters issue semantically identical
requests differing only in transport shape — the Gemini prompt is exactly
the system instruction and the user message joined by a blank line, the
OpenAI request is the same two texts as a system/user message pair, both
carry the caller's api key, temperature 0.7 and a JSON-response directive
— and both post-process the backend outcome identically. -/
theorem providers_same_request_semantics
    (k : String) (fs : List Fragment) (pr : Option Promotion)
    (gb : GeminiRequest → BackendOutcome) (ob : OpenAIRequest → BackendOutcome) :
    (generate_with_gemini k fs pr gb).1.prompt =
        SYSTEM_PROMPT ++ "\n\n" ++ build_user_message fs pr ∧
    (generate_with_openai k fs pr ob).1.messages =
        [⟨"system", SYSTEM_PROMPT⟩, ⟨"user", build_user_message fs pr⟩] ∧
    (generate_with_gemini k fs pr gb).1.prompt =
        String.intercalate "\n\n"
          (((generate_with_openai k fs pr ob).1.messages).map Message.content) ∧
    (generate_with_gemini k fs pr gb).1.api_key = k ∧
    (generate_with_openai k fs pr ob).1.api_key = k ∧
    (generate_with_gemini k fs pr gb).1.temperature = 7 / 10 ∧
    (generate_with_openai k fs pr ob).1.temperature =
        (generate_with_gemini k fs pr gb).1.temperature ∧
    (generate_with_gemini k fs pr gb).1.response_mime_type = "application/json" ∧
    (generate_with_openai k fs pr ob).1.response_format_type = "json_object" ∧
    ∀ bo : BackendOutcome,
      (generate_with_gemini k fs pr fun _ => bo).2 =
        (generate_with_openai k fs pr fun _ => bo).2 := by
  refine ⟨rfl, rfl, rfl, rfl, rfl, rfl, rfl, rfl, rfl, fun bo => ?_⟩
  cases bo <;> rfl

/-- C7: round-trip — a synthetic backend response that exactly matches the
GenerationResult JSON shape is returned by either adapter as the very
value it encodes, and reading it exactly as `main` does (subscript
accesses and `.get("socialPosts", [])`) recovers the original article
title, article content, and the social posts in order. -/
theorem response_roundtrip_preserves_fields
    (r : GenerationResult) (k : String) (fs : List Fragment) (pr : Option Promotion) :
    (generate_with_gemini k fs pr fun _ => .response (.ok (encodeResult r))).2 =
        .ok (encodeResult r) ∧
    (generate_with_openai k fs pr fun _ => .response (.ok (encodeResult r))).2 =
        .ok (encodeResult r) ∧
    articleTitle (encodeResult r) = some (.str r.article.title) ∧
    articleContent (encodeResult r) = some (.str r.article.content) ∧
    socialPostsOf (encodeResult r) = .arr (r.socialPosts.map encodePost) ∧
    (r.socialPosts.map encodePost).map postFields =
      r.socialPosts.map fun p => (some (.str p.platform), some (.str p.content)) := by
  refine ⟨rfl, rfl, rfl, rfl, rfl, ?_⟩
  rw [List.map_map]
  rfl

/-- C8, counterexample: the claim says every failing generation call —
including a returned text that mismatches the expected JSON shape — is
surfaced as the single generic "generation failed" error. It is false for
a shape mismatch that is still valid JSON: the backend answer
`{"socialPosts": []}` (missing `article`) is stored as a successful
result, not shown as `❌ 生成失敗：...`; the stored value's
`result['article']` read then yields nothing (the uncaught `KeyError` of
src/streamlit_app.py line 402, outside the try/except). -/
theorem wrong_shape_response_stored_not_errored :
    mainGenerateFlow "gemini" "sk-test" true [⟨"A", "t"⟩] "" ""
        (fun _ => .response (.ok (.obj [("socialPosts", .arr [])])))
        (fun _ => .response (.ok .null)) =
      .stored (.obj [("socialPosts", .arr [])]) ∧
    articleTitle (.obj [("socialPosts", .arr [])]) = none :=
  ⟨rfl, rfl⟩

/-- C8, amended: of a failing generation call, only a backend request
failure (network/auth exception) and a JSON *syntax* failure on the
returned text are surfaced by `main` as the single generic error
`f"❌ 生成失敗：{str(e)}"` carrying the underlying message, with nothing
stored, no retry, no partial recovery, and no fallback to the other
provider (the other provider's backend is arbitrary and never consulted);
a returned text that parses but mismatches the expected shape is not a
failure here at all — every parsed JSON value is stored as a success, the
mismatch surfacing only later in the display code. -/
theorem transport_and_decode_failures_single_error_no_fallback
    (k pn pl m : String) (f : Fragment) (fs : List Fragment) (sec : Bool) (v : Json)
    (gb : GeminiRequest → BackendOutcome) (ob : OpenAIRequest → BackendOutcome)
    (hk : ¬(sec = false ∧ k = "")) :
    mainGenerateFlow "gemini" k sec (f :: fs) pn pl (fun _ => .transportError m) ob =
        .errorShown ("❌ 生成失敗：" ++ m) ∧
    mainGenerateFlow "gemini" k sec (f :: fs) pn pl (fun _ => .response (.error m)) ob =
        .errorShown ("❌ 生成失敗：" ++ m) ∧
    mainGenerateFlow "openai" k sec (f :: fs) pn pl gb (fun _ => .transportError m) =
        .errorShown ("❌ 生成失敗：" ++ m) ∧
    mainGenerateFlow "openai" k sec (f :: fs) pn pl gb (fun _ => .response (.error m)) =
        .errorShown ("❌ 生成失敗：" ++ m) ∧
    mainGenerateFlow "gemini" k sec (f :: fs) pn pl (fun _ => .response (.ok v)) ob =
        .stored v ∧
    mainGenerateFlow "openai" k sec (f :: fs) pn pl gb (fun _ => .response (.ok v)) =
        .stored v := by
  refine ⟨?_, ?_, ?_, ?_, ?_, ?_⟩ <;>
    simp [mainGenerateFlow, if_neg hk, generate_with_gemini, generate_with_openai]

/-- Witness for the amended C8: a concrete authentication failure on the
Gemini path is shown as the generic message, with the OpenAI backend set
up to answer differently — and ignored. -/
theorem transport_and_decode_failures_single_error_no_fallback_witness :
    mainGenerateFlow "gemini" "sk-test" true [⟨"A", "t"⟩] "" ""
        (fun _ => .transportError "401 Unauthorized")
        (fun _ => .response (.ok .null)) =
      .errorShown ("❌ 生成失敗：" ++ "401 Unauthorized") :=
  (transport_and_decode_failures_single_error_no_fallback "sk-test" "" "" "401 Unauthorized"
    ⟨"A", "t"⟩ [] true .null (fun _ => .response (.ok .null)) (fun _ => .response (.ok .null))
    (by simp)).1

/-- C9: `build_user_message` is total on an empty fragment list — it
performs no non-emptiness check and returns just the lead-in sentence plus
the promotion section (which is empty unless both promotion fields are
non-empty). -/
theorem build_user_message_total_on_empty (pr : Option Promotion) :
    build_user_message [] pr = leadIn ++ promotionSection pr := by
  rw [build_user_message_eq]
  show leadIn ++ "" ++ promotionSection pr = _
  rw [String.append_empty]

/-- C10: without a promotion, appending one fragment to the list only
appends its numbered block (index `fs.length + 1`) to the end of the
prompt, leaving everything before it unchanged — so the old prompt is a
strict prefix of the new one, the appended block being non-empty. -/
theorem build_user_message_append_extends (fs : List Fragment) (f : Fragment) :
    build_user_message (fs ++ [f]) none =
      build_user_message fs none ++ fragmentBlock (fs.length + 1) f.content ∧
    fragmentBlock (fs.length + 1) f.content ≠ "" := by
  refine ⟨?_, fragmentBlock_ne_empty _ _⟩
  rw [build_user_message_eq, build_user_message_eq]
  show leadIn ++ fragmentsSection 1 (fs ++ [f]) ++ "" =
    leadIn ++ fragmentsSection 1 fs ++ "" ++ fragmentBlock (fs.length + 1) f.content
  rw [String.append_empty, String.append_empty, fragmentsSection_append_single fs f 1]
  rw [← String.append_assoc]
  have harith : 1 + fs.length = fs.length + 1 := by omega
  rw [harith]
